import Mathlib

/-!
Shallow embedding of `src/app.py` (cycle2-shopify).

The embedding covers the Google-Sheets catalog upsert
(`update_stock_levels`, `get_all_products`), the scraper's fuzzy matcher
(`similarity_ratio` via `difflib.SequenceMatcher`, `find_matching_product`),
per-listing stock extraction (`get_stock_levels`) and the reconciliation
loop (`sync_stock`).

Modelling conventions:
* The external Sheets / Selenium collaborators are modelled at their
  interface boundary: the spreadsheet grid is a `List SheetRow` (one field
  per column A..V, an empty cell is `""`), the raw rows returned by
  `get_all_products` are `List String` (so out-of-range indexing is
  observable, as in Python), search results are a `List Listing` supplied
  per query, and a listing's page either materializes (`some Page`) or does
  not (`none`, covering the bounded-wait timeout and missing elements
  inside the `try` of `get_stock_levels`).
* Python exceptions are `Except PyErr`; a `try/except` that logs and
  returns a default is a total function returning that default.
* `difflib` float ratios are modelled as exact rationals; the similarity
  is the documented Ratcliff-Obershelp semantics of `SequenceMatcher`
  without junk (the autojunk heuristic only fires for strings of length
  at least 200 and is not modelled).
* Python `int(...)` on a string is `pyInt?` (strip whitespace, optional
  sign, at least one digit); `int(None)` is a `TypeError`.
-/

namespace App

/-- Python exception kinds that the embedded code can raise. -/
inductive PyErr where
  | indexError
  | valueError
  | typeError
  | nameError
  | webdriverError
  | apiError
  deriving DecidableEq

/-- Numeric value of a digit list, most significant first. -/
def digitsToNat (l : List Char) : Nat :=
  l.foldl (fun acc c => acc * 10 + (c.toNat - 48)) 0

/-- Whitespace stripped from both ends of a character list (the
`int(...)` conversion ignores surrounding whitespace). -/
def trimChars (l : List Char) : List Char :=
  ((l.dropWhile Char.isWhitespace).reverse.dropWhile Char.isWhitespace).reverse

/-- Python `str.lower()` character-wise. -/
def lowerStr (s : String) : String :=
  String.mk (s.toList.map Char.toLower)

/-- Python `int(s)` on a string: strip surrounding whitespace, allow one
optional sign, then at least one decimal digit; anything else raises
`ValueError` (modelled as `none`). -/
def pyInt? (s : String) : Option Int :=
  match trimChars s.toList with
  | [] => none
  | '-' :: rest =>
      if !rest.isEmpty && rest.all Char.isDigit then
        some (-(digitsToNat rest : Int))
      else none
  | '+' :: rest =>
      if !rest.isEmpty && rest.all Char.isDigit then
        some ((digitsToNat rest : Int))
      else none
  | l =>
      if l.all Char.isDigit then some ((digitsToNat l : Int)) else none

/-- One spreadsheet row over columns A..V, one field per column of
`COLUMN_MAPPINGS`; an empty cell is the empty string. -/
structure SheetRow where
  handle : String
  title : String
  option1_name : String
  option1_value : String
  option2_name : String
  option2_value : String
  option3_name : String
  option3_value : String
  sku : String
  hs_code : String
  coo : String
  location : String
  incoming : String
  unavailable : String
  committed : String
  available : String
  on_hand : String
  acdc_stock : String
  stock_difference : String
  last_checked : String
  action_required : String
  notes : String
  deriving DecidableEq

/-- A row whose cells are all empty. -/
def blankRow : SheetRow :=
  ⟨"", "", "", "", "", "", "", "", "", "", "",
   "", "", "", "", "", "", "", "", "", "", ""⟩

/-- The `shopify_data` dict passed to `update_stock_levels`; defaults are
the `.get(key, default)` fall-backs used in the source. -/
structure ShopifyData where
  handle : String := ""
  title : String := ""
  option1_name : String := ""
  option1_value : String := ""
  option2_name : String := ""
  option2_value : String := ""
  option3_name : String := ""
  option3_value : String := ""
  hs_code : String := ""
  coo : String := ""
  location : String := ""
  incoming : String := "0"
  unavailable : String := "0"
  committed : String := "0"
  available : String := "0"
  on_hand : String := "0"
  deriving DecidableEq

/-- Column S value: `'Yes' if int(shopify_stock) != int(acdc_stock) else 'No'`. -/
def stockDiffFlag (shopifyStock acdcStock : Int) : String :=
  if shopifyStock ≠ acdcStock then "Yes" else "No"

/-- Column U value: `'Check stock levels' if int(shopify_stock) != int(acdc_stock) else ''`. -/
def actionNote (shopifyStock acdcStock : Int) : String :=
  if shopifyStock ≠ acdcStock then "Check stock levels" else ""

/-- The per-row test of the SKU-lookup loop `if row and row[0] == sku`:
the Sheets API returns `[]` for a row whose column-I cell is empty (so an
empty cell never matches), and `[cell]` otherwise. -/
def rowMatchesSku (key : String) (r : SheetRow) : Bool :=
  (r.sku != "") && (r.sku == key)

/-- First 0-based index whose column-I cell equals `key`, as scanned by
`update_stock_levels` (`enumerate` over the column-I read). -/
def findRowBySku (key : String) : List SheetRow → Option Nat
  | [] => none
  | r :: rest =>
      if rowMatchesSku key r then some 0
      else (findRowBySku key rest).map (· + 1)

/-- The in-place write of range `R{row}:V{row}` performed on an existing
row: only the five stock-tracking columns change. -/
def writeStockCols (r : SheetRow) (acdcStock shopifyStock : Int) (now : String) : SheetRow :=
  { r with
    acdc_stock := toString acdcStock
    stock_difference := stockDiffFlag shopifyStock acdcStock
    last_checked := now
    action_required := actionNote shopifyStock acdcStock
    notes := "" }

/-- The full A..V row appended for a SKU not yet present. -/
def newProductRow (key : String) (d : ShopifyData) (shopifyStock acdcStock : Int)
    (now : String) : SheetRow :=
  { handle := d.handle
    title := d.title
    option1_name := d.option1_name
    option1_value := d.option1_value
    option2_name := d.option2_name
    option2_value := d.option2_value
    option3_name := d.option3_name
    option3_value := d.option3_value
    sku := key
    hs_code := d.hs_code
    coo := d.coo
    location := d.location
    incoming := d.incoming
    unavailable := d.unavailable
    committed := d.committed
    available := d.available
    on_hand := d.on_hand
    acdc_stock := toString acdcStock
    stock_difference := stockDiffFlag shopifyStock acdcStock
    last_checked := now
    action_required := actionNote shopifyStock acdcStock
    notes := "" }

/-- `GoogleSheetsHandler.update_stock_levels`: find the row by SKU; if
present, rewrite `R:V` of that row in place; if absent, append a full new
row.  `int(shopify_stock)` is evaluated while the cell values are built,
so a parse failure raises before any write, is caught by the surrounding
`except`, and the method returns `False` with the sheet untouched. -/
def updateStockLevels (sheet : List SheetRow) (key : String) (d : ShopifyData)
    (acdcStock : Int) (now : String) : Bool × List SheetRow :=
  match findRowBySku key sheet with
  | some i =>
      match pyInt? d.on_hand with
      | none => (false, sheet)
      | some p =>
          (true, sheet.set i (writeStockCols (sheet.getD i blankRow) acdcStock p now))
  | none =>
      match pyInt? d.on_hand with
      | none => (false, sheet)
      | some p => (true, sheet ++ [newProductRow key d p acdcStock now])

/-- `GoogleSheetsHandler.get_all_products`: return the fetched rows, or
catch any API failure, log it, and return the empty list. -/
def getAllProducts (fetch : Except PyErr (List (List String))) : List (List String) :=
  match fetch with
  | .ok v => v
  | .error _ => []

/-- Erase the `last_checked` column of every row, the only column whose
value depends on the wall clock. -/
def stripTimestamp (sheet : List SheetRow) : List SheetRow :=
  sheet.map (fun r => { r with last_checked := "" })

/-- Characters of a string after Python `.lower()`. -/
def lowerChars (s : String) : List Char :=
  s.toList.map Char.toLower

/-- Length of the common run of `a` and `b` starting at their heads. -/
def runLen : List Char → List Char → Nat
  | x :: xs, y :: ys => if x = y then runLen xs ys + 1 else 0
  | _, _ => 0

/-- Longest matching block `(i, j, k)` of two character lists: maximal
`k`, earliest start in `a`, then earliest start in `b` — the documented
behaviour of `SequenceMatcher.find_longest_match` with no junk. -/
def bestBlock (a b : List Char) : Nat × Nat × Nat :=
  (List.range a.length).foldl (fun acc i =>
    (List.range b.length).foldl (fun acc j =>
      let k := runLen (a.drop i) (b.drop j)
      if acc.2.2 < k then (i, j, k) else acc) acc) (0, 0, 0)

/-- Total number of matched characters across the recursive matching-block
decomposition of `SequenceMatcher`; `fuel` bounds the recursion depth and
any value beyond the combined length is enough. -/
def matchesCount : Nat → List Char → List Char → Nat
  | 0, _, _ => 0
  | fuel + 1, a, b =>
      let t := bestBlock a b
      if t.2.2 = 0 then 0
      else
        t.2.2 + matchesCount fuel (a.take t.1) (b.take t.2.1)
          + matchesCount fuel (a.drop (t.1 + t.2.2)) (b.drop (t.2.1 + t.2.2))

/-- `ACDCStockScraper.similarity_ratio`: `SequenceMatcher(None, a.lower(),
b.lower()).ratio()`, as an exact rational `2 * matches / (len a + len b)`,
and `1` when both strings are empty. -/
def similarity (a b : String) : ℚ :=
  let la := lowerChars a
  let lb := lowerChars b
  let total := la.length + lb.length
  if total = 0 then 1
  else mkRat (2 * (matchesCount (total + 1) la lb) : Int) total

/-- Contents of a listing page once its structural markers materialized:
the `stock-status` element text and the `(branch, quantity)` cell texts of
the `stock-table` rows. -/
structure Page where
  status : String
  rows : List (List String)
  deriving DecidableEq

/-- One search-result product: its `product-title` text, the `href` of its
parent anchor (`none` models a missing attribute), and its page contents
(`none` models the stock table never becoming available within the
bounded wait, or a missing element inside the `try`). -/
structure Listing where
  text : String
  href : Option String
  page : Option Page
  deriving DecidableEq

/-- Accumulator loop of `find_matching_product`: keep the candidate
whenever `ratio > best_ratio and ratio >= threshold`. -/
def findBest (q : String) (thr : ℚ) :
    List Listing → Option Listing → ℚ → Option Listing
  | [], best, _ => best
  | p :: rest, best, bestRatio =>
      if bestRatio < similarity q p.text ∧ thr ≤ similarity q p.text then
        findBest q thr rest (some p) (similarity q p.text)
      else
        findBest q thr rest best bestRatio

/-- `ACDCStockScraper.find_matching_product` over already-materialized
search results (`best_match = None`, `best_ratio = 0` initially). -/
def findMatchingProduct (q : String) (products : List Listing) (thr : ℚ) : Option Listing :=
  findBest q thr products none 0

/-- The `stock_data` dict built by `get_stock_levels`: raw quantity texts
per branch (`none` is Python `None`, the initial value kept when the
branch row never occurs), plus the status text. -/
structure StockData where
  edenvale : Option String
  germiston : Option String
  status : String
  deriving DecidableEq

/-- The row loop of `get_stock_levels` over the stock table: rows with at
least two cells assign the raw quantity text to the branch named by the
first cell (lower-cased); a repeated branch keeps the last value. -/
def readStockPage (pg : Page) : StockData :=
  pg.rows.foldl (fun sd cells =>
    if 2 ≤ cells.length then
      let branch := lowerStr (cells.getD 0 "")
      let quantity := cells.getD 1 ""
      if branch = "edenvale" then { sd with edenvale := some quantity }
      else if branch = "germiston" then { sd with germiston := some quantity }
      else sd
    else sd)
    { edenvale := none, germiston := none, status := pg.status }

/-- `ACDCStockScraper.get_stock_levels` for one title, given the search
results for that title: no match yields `None`; a matched listing whose
parent anchor has no `href` makes `driver.get(None)` raise outside the
`try`; a page that never materializes is caught by the `except` and yields
`None`; otherwise the stock table is read. -/
def getStockLevels (productTitle : String) (candidates : List Listing) :
    Except PyErr (Option StockData) :=
  match findMatchingProduct productTitle candidates (mkRat 4 5) with
  | none => .ok none
  | some p =>
      match p.href with
      | none => .error .webdriverError
      | some _ =>
          match p.page with
          | none => .ok none
          | some pg => .ok (some (readStockPage pg))

/-- Python `int(acdc_stock.get(branch, 0))` in `sync_stock`: the key is
always present in the dict, so the reading itself is converted — `None`
raises `TypeError`, a non-integer text raises `ValueError`. -/
def intOfReading (q : Option String) : Except PyErr Int :=
  match q with
  | none => .error .typeError
  | some s =>
      match pyInt? s with
      | some n => .ok n
      | none => .error .valueError

/-- The aggregation `int(acdc_stock.get('edenvale', 0)) +
int(acdc_stock.get('germiston', 0))` of `sync_stock`, left to right. -/
def aggregateTotal (sd : StockData) : Except PyErr Int := do
  let e ← intOfReading sd.edenvale
  let g ← intOfReading sd.germiston
  pure (e + g)

/-- Python list indexing `l[i]`: `IndexError` when out of range. -/
def getIdx (l : List String) (i : Nat) : Except PyErr String :=
  match l.get? i with
  | some v => .ok v
  | none => .error .indexError

/-- Outcome recorded for one catalog entry by the reconciliation loop. -/
inductive Outcome where
  | updated
  | noStock
  | failed (e : PyErr)
  deriving DecidableEq

/-- Body of the per-product `try` block in `sync_stock`: read
`title`/`sku`/`current_stock` from the raw row, scrape, and — when stock
data came back — aggregate, build `shopify_data`, and upsert.  The
returned sheet is the store state after the entry. -/
def entryBody (env : String → List Listing) (now : String)
    (sheet : List SheetRow) (product : List String) :
    Except PyErr (List SheetRow × Outcome) := do
  let title ← getIdx product 1
  let key ← getIdx product 8
  let currentStock ← getIdx product 16
  let acdcStock ← getStockLevels title (env title)
  match acdcStock with
  | some sd =>
      let total ← aggregateTotal sd
      let handle ← getIdx product 0
      let d : ShopifyData := { handle := handle, title := title, on_hand := currentStock }
      let r := updateStockLevels sheet key d total now
      pure (r.2, Outcome.updated)
  | none => pure (sheet, Outcome.noStock)

/-- The `for product in products` loop of `sync_stock` with its
`except Exception ... continue` handler.  The handler interpolates the
loop variable `title`; if no iteration has yet bound `title` (the very
first entry failed at `product[1]`), the handler itself raises
`NameError`, which escapes the loop — tracked by the `titleBound` flag.
Returns the final sheet, the per-entry outcomes in order, and the escaped
error, if any. -/
def syncLoop (env : String → List Listing) (now : String) :
    List (List String) → List SheetRow → Bool →
    List SheetRow × List Outcome × Option PyErr
  | [], sheet, _ => (sheet, [], none)
  | p :: rest, sheet, titleBound =>
      let titleBound' := titleBound || (p.get? 1).isSome
      match entryBody env now sheet p with
      | .ok (sheet', o) =>
          let r := syncLoop env now rest sheet' titleBound'
          (r.1, o :: r.2.1, r.2.2)
      | .error e =>
          if titleBound' then
            let r := syncLoop env now rest sheet titleBound'
            (r.1, Outcome.failed e :: r.2.1, r.2.2)
          else (sheet, [], some PyErr.nameError)

/-- `sync_stock`: fetch the catalog snapshot (`get_all_products` swallows
fetch errors and yields `[]`), then run the per-entry loop over it; an
error escaping the loop is re-raised by the outer `except`. -/
def syncStock (fetch : Except PyErr (List (List String)))
    (env : String → List Listing) (now : String) (sheet : List SheetRow) :
    Except PyErr (List SheetRow × List Outcome) :=
  let products := getAllProducts fetch
  let r := syncLoop env now products sheet false
  match r.2.2 with
  | some e => .error e
  | none => .ok (r.1, r.2.1)

/-! Helper lemmas about list indexing and the SKU lookup. -/

lemma getD_set_self {α : Type} (l : List α) (i : Nat) (x d : α) (h : i < l.length) :
    (l.set i x).getD i d = x := by
  simp [List.getD_eq_getElem?_getD, List.getElem?_set_self h]

lemma getD_set_ne {α : Type} (l : List α) {i j : Nat} (x d : α) (h : i ≠ j) :
    (l.set i x).getD j d = l.getD j d := by
  simp [List.getD_eq_getElem?_getD, List.getElem?_set_ne h]

lemma getD_concat_self {α : Type} (l : List α) (x d : α) :
    (l ++ [x]).getD l.length d = x := by
  simp [List.getD_eq_getElem?_getD, List.getElem?_concat_length]

lemma set_concat_self {α : Type} (l : List α) (x y : α) :
    (l ++ [x]).set l.length y = l ++ [y] := by
  induction l with
  | nil => rfl
  | cons a t ih => simp [ih]

lemma updateStockLevels_found (sheet : List SheetRow) (key : String) (d : ShopifyData)
    (acdcStock : Int) (now : String) (i : Nat) (p : Int)
    (hf : findRowBySku key sheet = some i) (hp : pyInt? d.on_hand = some p) :
    updateStockLevels sheet key d acdcStock now
      = (true, sheet.set i (writeStockCols (sheet.getD i blankRow) acdcStock p now)) := by
  unfold updateStockLevels
  rw [hf, hp]

lemma updateStockLevels_notFound (sheet : List SheetRow) (key : String) (d : ShopifyData)
    (acdcStock : Int) (now : String) (p : Int)
    (hf : findRowBySku key sheet = none) (hp : pyInt? d.on_hand = some p) :
    updateStockLevels sheet key d acdcStock now
      = (true, sheet ++ [newProductRow key d p acdcStock now]) := by
  unfold updateStockLevels
  rw [hf, hp]

lemma updateStockLevels_parseFail (sheet : List SheetRow) (key : String) (d : ShopifyData)
    (acdcStock : Int) (now : String) (hp : pyInt? d.on_hand = none) :
    updateStockLevels sheet key d acdcStock now = (false, sheet) := by
  unfold updateStockLevels
  cases findRowBySku key sheet <;> rw [hp]

lemma findRowBySku_spec (key : String) :
    ∀ (l : List SheetRow) (i : Nat), findRowBySku key l = some i →
      i < l.length ∧ rowMatchesSku key (l.getD i blankRow) = true ∧
      ∀ j, j < i → rowMatchesSku key (l.getD j blankRow) = false := by
  intro l
  induction l with
  | nil => intro i h; simp [findRowBySku] at h
  | cons r rest ih =>
    intro i h
    by_cases hr : rowMatchesSku key r = true
    · simp only [findRowBySku, if_pos hr] at h
      cases h
      exact ⟨Nat.succ_pos _, by simpa using hr, fun j hj => absurd hj (Nat.not_lt_zero j)⟩
    · simp only [findRowBySku, if_neg hr] at h
      obtain ⟨i', hi', rfl⟩ := Option.map_eq_some'.mp h
      obtain ⟨h1, h2, h3⟩ := ih i' hi'
      refine ⟨Nat.succ_lt_succ h1, by simpa using h2, ?_⟩
      intro j hj
      cases j with
      | zero => simpa using Bool.not_eq_true _ ▸ hr
      | succ j' => simpa using h3 j' (by omega)

lemma findRowBySku_of_spec (key : String) :
    ∀ (l : List SheetRow) (i : Nat), i < l.length →
      rowMatchesSku key (l.getD i blankRow) = true →
      (∀ j, j < i → rowMatchesSku key (l.getD j blankRow) = false) →
      findRowBySku key l = some i := by
  intro l
  induction l with
  | nil => intro i h; simp at h
  | cons r rest ih =>
    intro i hi hm hj
    cases i with
    | zero =>
      have hr : rowMatchesSku key r = true := by simpa using hm
      simp [findRowBySku, hr]
    | succ i' =>
      have hr : rowMatchesSku key r = false := by simpa using hj 0 (Nat.succ_pos _)
      have hrec := ih i' (by simpa using hi) (by simpa using hm)
        (fun j hjj => by simpa using hj (j + 1) (by omega))
      simp [findRowBySku, hr, hrec]

lemma findRowBySku_set (key : String) (l : List SheetRow) (i : Nat) (x : SheetRow)
    (hf : findRowBySku key l = some i) (hx : rowMatchesSku key x = true) :
    findRowBySku key (l.set i x) = some i := by
  obtain ⟨h1, _h2, h3⟩ := findRowBySku_spec key l i hf
  apply findRowBySku_of_spec
  · simpa using h1
  · rw [getD_set_self _ _ _ _ h1]; exact hx
  · intro j hj
    rw [getD_set_ne _ _ _ (by omega)]
    exact h3 j hj

lemma findRowBySku_concat (key : String) :
    ∀ (l : List SheetRow) (x : SheetRow), findRowBySku key l = none →
      rowMatchesSku key x = true →
      findRowBySku key (l ++ [x]) = some l.length := by
  intro l
  induction l with
  | nil => intro x _ hx; simp [findRowBySku, hx]
  | cons r rest ih =>
    intro x h hx
    by_cases hr : rowMatchesSku key r = true
    · simp [findRowBySku, hr] at h
    · have hr' : rowMatchesSku key r = false := by simpa using hr
      have hrest : findRowBySku key rest = none := by
        simpa [findRowBySku, hr'] using h
      have := ih x hrest hx
      simp [findRowBySku, hr', this]

/-! Theorems about the claims. -/

/-- C1.  Upsert is idempotent: for every nonempty SKU and field set,
running `update_stock_levels` twice with identical inputs leaves the
catalog store with the same number of rows (no duplicate is appended) and
the same observable state apart from the `last_checked` timestamp: the
first call finds the row or appends it, the second finds that row and
rewrites `R:V` in place with identical values. -/
theorem upsert_idempotent (sheet : List SheetRow) (key : String) (d : ShopifyData)
    (acdcStock : Int) (n1 n2 : String) (hkey : key ≠ "") :
    (updateStockLevels (updateStockLevels sheet key d acdcStock n1).2 key d acdcStock n2).2.length
      = (updateStockLevels sheet key d acdcStock n1).2.length ∧
    stripTimestamp
        (updateStockLevels (updateStockLevels sheet key d acdcStock n1).2 key d acdcStock n2).2
      = stripTimestamp (updateStockLevels sheet key d acdcStock n1).2 := by
  cases hp : pyInt? d.on_hand with
  | none =>
    have h1 : (updateStockLevels sheet key d acdcStock n1).2 = sheet := by
      rw [updateStockLevels_parseFail sheet key d acdcStock n1 hp]
    rw [h1]
    have h2 : (updateStockLevels sheet key d acdcStock n2).2 = sheet := by
      rw [updateStockLevels_parseFail sheet key d acdcStock n2 hp]
    rw [h2]
    exact ⟨rfl, rfl⟩
  | some p =>
    cases hf : findRowBySku key sheet with
    | some i =>
      obtain ⟨hi, hm, -⟩ := findRowBySku_spec key sheet i hf
      have h1 : (updateStockLevels sheet key d acdcStock n1).2
          = sheet.set i (writeStockCols (sheet.getD i blankRow) acdcStock p n1) := by
        rw [updateStockLevels_found sheet key d acdcStock n1 i p hf hp]
      rw [h1]
      have hf1 : findRowBySku key
          (sheet.set i (writeStockCols (sheet.getD i blankRow) acdcStock p n1)) = some i :=
        findRowBySku_set key sheet i _ hf hm
      have h2 : (updateStockLevels
            (sheet.set i (writeStockCols (sheet.getD i blankRow) acdcStock p n1))
            key d acdcStock n2).2
          = (sheet.set i (writeStockCols (sheet.getD i blankRow) acdcStock p n1)).set i
              (writeStockCols
                ((sheet.set i (writeStockCols (sheet.getD i blankRow) acdcStock p n1)).getD
                  i blankRow) acdcStock p n2) := by
        rw [updateStockLevels_found _ key d acdcStock n2 i p hf1 hp]
      rw [h2, getD_set_self _ _ _ _ hi, List.set_set]
      constructor
      · simp
      · simp only [stripTimestamp, List.map_set]
        congr 1
    | none =>
      have hnew : rowMatchesSku key (newProductRow key d p acdcStock n1) = true := by
        simp [rowMatchesSku, newProductRow, hkey]
      have h1 : (updateStockLevels sheet key d acdcStock n1).2
          = sheet ++ [newProductRow key d p acdcStock n1] := by
        rw [updateStockLevels_notFound sheet key d acdcStock n1 p hf hp]
      rw [h1]
      have hf1 : findRowBySku key (sheet ++ [newProductRow key d p acdcStock n1])
          = some sheet.length :=
        findRowBySku_concat key sheet _ hf hnew
      have h2 : (updateStockLevels (sheet ++ [newProductRow key d p acdcStock n1])
            key d acdcStock n2).2
          = (sheet ++ [newProductRow key d p acdcStock n1]).set sheet.length
              (writeStockCols
                ((sheet ++ [newProductRow key d p acdcStock n1]).getD sheet.length blankRow)
                acdcStock p n2) := by
        rw [updateStockLevels_found _ key d acdcStock n2 sheet.length p hf1 hp]
      rw [h2, getD_concat_self]
      have hcomp : writeStockCols (newProductRow key d p acdcStock n1) acdcStock p n2
          = newProductRow key d p acdcStock n2 := rfl
      rw [hcomp, set_concat_self]
      constructor
      · simp
      · simp only [stripTimestamp, List.map_append]
        congr 1

/-- C1 witness: the idempotence theorem instantiated at a concrete SKU,
field set and pair of timestamps. -/
theorem upsert_idempotent_check :
    ("A1" : String) ≠ "" ∧
    ((updateStockLevels (updateStockLevels [] "A1" { on_hand := "5" } 3 "t1").2
        "A1" { on_hand := "5" } 3 "t2").2.length
      = (updateStockLevels [] "A1" { on_hand := "5" } 3 "t1").2.length ∧
    stripTimestamp
        (updateStockLevels (updateStockLevels [] "A1" { on_hand := "5" } 3 "t1").2
          "A1" { on_hand := "5" } 3 "t2").2
      = stripTimestamp (updateStockLevels [] "A1" { on_hand := "5" } 3 "t1").2) :=
  ⟨by decide, upsert_idempotent [] "A1" { on_hand := "5" } 3 "t1" "t2" (by decide)⟩

/-- C9.  Upsert frame condition: when the SKU is already present at row
`i`, `update_stock_levels` only ever rewrites the five stock-tracking
columns `R:V` of that row — every other row is untouched, no row is added
or removed, and columns A through Q of row `i` keep their values (this
also covers the failure path, which writes nothing at all). -/
theorem upsert_frame (sheet : List SheetRow) (key : String) (d : ShopifyData)
    (acdcStock : Int) (now : String) (i : Nat)
    (hf : findRowBySku key sheet = some i) :
    (updateStockLevels sheet key d acdcStock now).2.length = sheet.length ∧
    (∀ j, j ≠ i →
      (updateStockLevels sheet key d acdcStock now).2.getD j blankRow
        = sheet.getD j blankRow) ∧
    ((updateStockLevels sheet key d acdcStock now).2.getD i blankRow).handle
        = (sheet.getD i blankRow).handle ∧
    ((updateStockLevels sheet key d acdcStock now).2.getD i blankRow).title
        = (sheet.getD i blankRow).title ∧
    ((updateStockLevels sheet key d acdcStock now).2.getD i blankRow).option1_name
        = (sheet.getD i blankRow).option1_name ∧
    ((updateStockLevels sheet key d acdcStock now).2.getD i blankRow).option1_value
        = (sheet.getD i blankRow).option1_value ∧
    ((updateStockLevels sheet key d acdcStock now).2.getD i blankRow).option2_name
        = (sheet.getD i blankRow).option2_name ∧
    ((updateStockLevels sheet key d acdcStock now).2.getD i blankRow).option2_value
        = (sheet.getD i blankRow).option2_value ∧
    ((updateStockLevels sheet key d acdcStock now).2.getD i blankRow).option3_name
        = (sheet.getD i blankRow).option3_name ∧
    ((updateStockLevels sheet key d acdcStock now).2.getD i blankRow).option3_value
        = (sheet.getD i blankRow).option3_value ∧
    ((updateStockLevels sheet key d acdcStock now).2.getD i blankRow).sku
        = (sheet.getD i blankRow).sku ∧
    ((updateStockLevels sheet key d acdcStock now).2.getD i blankRow).hs_code
        = (sheet.getD i blankRow).hs_code ∧
    ((updateStockLevels sheet key d acdcStock now).2.getD i blankRow).coo
        = (sheet.getD i blankRow).coo ∧
    ((updateStockLevels sheet key d acdcStock now).2.getD i blankRow).location
        = (sheet.getD i blankRow).location ∧
    ((updateStockLevels sheet key d acdcStock now).2.getD i blankRow).incoming
        = (sheet.getD i blankRow).incoming ∧
    ((updateStockLevels sheet key d acdcStock now).2.getD i blankRow).unavailable
        = (sheet.getD i blankRow).unavailable ∧
    ((updateStockLevels sheet key d acdcStock now).2.getD i blankRow).committed
        = (sheet.getD i blankRow).committed ∧
    ((updateStockLevels sheet key d acdcStock now).2.getD i blankRow).available
        = (sheet.getD i blankRow).available ∧
    ((updateStockLevels sheet key d acdcStock now).2.getD i blankRow).on_hand
        = (sheet.getD i blankRow).on_hand := by
  obtain ⟨hi, -, -⟩ := findRowBySku_spec key sheet i hf
  cases hp : pyInt? d.on_hand with
  | none =>
    have h1 : (updateStockLevels sheet key d acdcStock now).2 = sheet := by
      rw [updateStockLevels_parseFail sheet key d acdcStock now hp]
    rw [h1]
    refine ⟨rfl, fun j _ => rfl, ?_⟩
    repeat exact ⟨rfl, by repeat first | exact rfl | constructor⟩
  | some p =>
    have h1 : (updateStockLevels sheet key d acdcStock now).2
        = sheet.set i (writeStockCols (sheet.getD i blankRow) acdcStock p now) := by
      rw [updateStockLevels_found sheet key d acdcStock now i p hf hp]
    rw [h1, getD_set_self _ _ _ _ hi]
    refine ⟨by simp, fun j hj => getD_set_ne _ _ _ (fun h => hj h.symm), ?_⟩
    repeat first | exact rfl | constructor

/-- C9 witness: the frame theorem instantiated on a concrete one-row
sheet whose row is found by its SKU. -/
theorem upsert_frame_check :
    findRowBySku "A1" [{ blankRow with sku := "A1", on_hand := "7" }] = some 0 ∧
    ((updateStockLevels [{ blankRow with sku := "A1", on_hand := "7" }]
        "A1" { on_hand := "7" } 3 "t").2.getD 0 blankRow).sku
      = (([{ blankRow with sku := "A1", on_hand := "7" }] :
          List SheetRow).getD 0 blankRow).sku :=
  ⟨by decide,
    (upsert_frame [{ blankRow with sku := "A1", on_hand := "7" }]
      "A1" { on_hand := "7" } 3 "t" 0 (by decide)).2.2.2.2.2.2.2.2.2.2.1⟩

/-- C7 counterexample: with a previous value that is not a parsable
integer (the "unknown" case), the upsert does not flag `changed = true` —
the `int()` comparison raises, is swallowed, the method returns `False`
and the store is left exactly as it was, with no discrepancy recorded. -/
theorem unknown_previous_not_flagged :
    updateStockLevels [{ blankRow with sku := "A1", on_hand := "7" }] "A1"
        { on_hand := "unknown" } 3 "t"
      = (false, [{ blankRow with sku := "A1", on_hand := "7" }]) ∧
    ((updateStockLevels [{ blankRow with sku := "A1", on_hand := "7" }] "A1"
        { on_hand := "unknown" } 3 "t").2.getD 0 blankRow).stock_difference ≠ "Yes" := by
  constructor
  · rfl
  · decide

/-- C7 amended: the discrepancy flag is only computed when the last known
stock parses as an integer.  If `on_hand` is unparseable ("unknown"), the
upsert fails and writes nothing — `changed` is not flagged; if it parses
to `p`, the recorded `stock_difference` is `"Yes"` exactly when the new
total differs from `p`. -/
theorem discrepancy_requires_parsable_previous (sheet : List SheetRow) (key : String)
    (d : ShopifyData) (acdcStock : Int) (now : String) (i : Nat)
    (hf : findRowBySku key sheet = some i) :
    (pyInt? d.on_hand = none →
      updateStockLevels sheet key d acdcStock now = (false, sheet)) ∧
    (∀ p, pyInt? d.on_hand = some p →
      ((updateStockLevels sheet key d acdcStock now).2.getD i blankRow).stock_difference
        = (if p ≠ acdcStock then "Yes" else "No")) := by
  obtain ⟨hi, -, -⟩ := findRowBySku_spec key sheet i hf
  constructor
  · intro hp
    exact updateStockLevels_parseFail sheet key d acdcStock now hp
  · intro p hp
    have h1 : (updateStockLevels sheet key d acdcStock now).2
        = sheet.set i (writeStockCols (sheet.getD i blankRow) acdcStock p now) := by
      rw [updateStockLevels_found sheet key d acdcStock now i p hf hp]
    rw [h1, getD_set_self _ _ _ _ hi]
    rfl

/-- C7 amended witness: instantiated on a concrete found row, both for an
unparseable and for a parsed previous value. -/
theorem discrepancy_requires_parsable_previous_check :
    findRowBySku "A1" [{ blankRow with sku := "A1", on_hand := "7" }] = some 0 ∧
    (pyInt? (ShopifyData.on_hand { on_hand := "7" }) = some 7 →
      ((updateStockLevels [{ blankRow with sku := "A1", on_hand := "7" }] "A1"
          { on_hand := "7" } 3 "t").2.getD 0 blankRow).stock_difference
        = (if (7 : Int) ≠ 3 then "Yes" else "No")) :=
  ⟨by decide, fun _hp =>
    (discrepancy_requires_parsable_previous [{ blankRow with sku := "A1", on_hand := "7" }]
      "A1" { on_hand := "7" } 3 "t" 0 (by decide)).2 7 (by decide)⟩

/-- C8 counterexample: for an entry whose discrepancy flag is set (here
previous value 5, new total 3), the recorded `action_required` value is
the literal `"Check stock levels"`, not `"review stock discrepancy"`. -/
theorem action_string_counterexample :
    ((updateStockLevels [] "A1" { on_hand := "5" } 3 "t").2.getD 0 blankRow).stock_difference
        = "Yes" ∧
    ((updateStockLevels [] "A1" { on_hand := "5" } 3 "t").2.getD 0 blankRow).action_required
        = "Check stock levels" ∧
    "Check stock levels" ≠ "review stock discrepancy" := by
  refine ⟨rfl, rfl, ?_⟩
  decide

/-- C8 amended: for every evaluated entry — whether the row is updated in
place or appended — the recorded `action_required` value is
`"Check stock levels"` when the values differ and the empty string when
they agree. -/
theorem action_string_value (sheet : List SheetRow) (key : String) (d : ShopifyData)
    (acdcStock : Int) (now : String) (p : Int) (hp : pyInt? d.on_hand = some p) :
    (∀ i, findRowBySku key sheet = some i →
      ((updateStockLevels sheet key d acdcStock now).2.getD i blankRow).action_required
        = (if p ≠ acdcStock then "Check stock levels" else "")) ∧
    (findRowBySku key sheet = none →
      ((updateStockLevels sheet key d acdcStock now).2.getD sheet.length blankRow).action_required
        = (if p ≠ acdcStock then "Check stock levels" else "")) := by
  constructor
  · intro i hf
    obtain ⟨hi, -, -⟩ := findRowBySku_spec key sheet i hf
    have h1 : (updateStockLevels sheet key d acdcStock now).2
        = sheet.set i (writeStockCols (sheet.getD i blankRow) acdcStock p now) := by
      rw [updateStockLevels_found sheet key d acdcStock now i p hf hp]
    rw [h1, getD_set_self _ _ _ _ hi]
    rfl
  · intro hf
    have h1 : (updateStockLevels sheet key d acdcStock now).2
        = sheet ++ [newProductRow key d p acdcStock now] := by
      rw [updateStockLevels_notFound sheet key d acdcStock now p hf hp]
    rw [h1, getD_concat_self]
    rfl

/-- C8 amended witness: instantiated on an append with differing values. -/
theorem action_string_value_check :
    pyInt? (ShopifyData.on_hand { on_hand := "5" }) = some 5 ∧
    (findRowBySku "A1" ([] : List SheetRow) = none →
      ((updateStockLevels [] "A1" { on_hand := "5" } 3 "t").2.getD 0 blankRow).action_required
        = (if (5 : Int) ≠ 3 then "Check stock levels" else "")) :=
  ⟨by decide, fun hf =>
    (action_string_value [] "A1" { on_hand := "5" } 3 "t" 5 (by decide)).2 hf⟩

/-- C3 counterexample: a failing catalog fetch does not abort the run and
does not propagate — `sync_stock` completes normally, exactly as if the
catalog were empty, because `get_all_products` catches the error and
returns the empty list. -/
theorem fetch_failure_completes_normally :
    syncStock (Except.error PyErr.apiError) (fun _ => []) "t" [] = Except.ok ([], []) := rfl

/-- C3 amended: a catalog-fetch failure is swallowed by
`get_all_products`, which returns the empty list, so the run completes
normally having processed zero entries and touches nothing. -/
theorem fetch_failure_yields_empty_run (e : PyErr) (env : String → List Listing)
    (now : String) (sheet : List SheetRow) :
    getAllProducts (Except.error e) = [] ∧
    syncStock (Except.error e) env now sheet = Except.ok (sheet, []) :=
  ⟨rfl, rfl⟩

lemma findBest_eq_none (q : String) (thr : ℚ) :
    ∀ (l : List Listing) (best : Option Listing) (bR : ℚ),
      findBest q thr l best bR = none →
      best = none ∧
      ∀ c ∈ l, ¬(bR < similarity q c.text ∧ thr ≤ similarity q c.text) := by
  intro l
  induction l with
  | nil => intro best bR h; exact ⟨h, by simp⟩
  | cons p rest ih =>
    intro best bR h
    simp only [findBest] at h
    by_cases hc : bR < similarity q p.text ∧ thr ≤ similarity q p.text
    · rw [if_pos hc] at h
      obtain ⟨hbest, -⟩ := ih _ _ h
      exact absurd hbest (by simp)
    · rw [if_neg hc] at h
      obtain ⟨hbest, hall⟩ := ih _ _ h
      refine ⟨hbest, ?_⟩
      intro c hcmem
      rcases List.mem_cons.mp hcmem with rfl | hmem
      · exact hc
      · exact hall c hmem

lemma findBest_eq_some (q : String) (thr : ℚ) :
    ∀ (l : List Listing) (best : Option Listing) (bR : ℚ) (c : Listing),
      findBest q thr l best bR = some c →
      (best = some c ∧
        ∀ d ∈ l, similarity q d.text ≤ bR ∨ similarity q d.text < thr)
      ∨ (∃ pre post, l = pre ++ c :: post ∧ bR < similarity q c.text
          ∧ thr ≤ similarity q c.text
          ∧ (∀ d ∈ pre,
              similarity q d.text < similarity q c.text ∨ similarity q d.text < thr)
          ∧ (∀ d ∈ post,
              similarity q d.text ≤ similarity q c.text ∨ similarity q d.text < thr)) := by
  intro l
  induction l with
  | nil => intro best bR c h; exact Or.inl ⟨h, by simp⟩
  | cons p rest ih =>
    intro best bR c h
    simp only [findBest] at h
    by_cases hc : bR < similarity q p.text ∧ thr ≤ similarity q p.text
    · rw [if_pos hc] at h
      rcases ih _ _ _ h with ⟨hbest, hall⟩ | ⟨pre, post, hl, hbr, hthr, hpre, hpost⟩
      · obtain rfl : p = c := Option.some.inj hbest
        right
        refine ⟨[], rest, rfl, hc.1, hc.2, by simp, ?_⟩
        intro d hd
        exact hall d hd
      · right
        refine ⟨p :: pre, post, by rw [hl]; rfl, lt_trans hc.1 hbr, hthr, ?_, hpost⟩
        intro d hd
        rcases List.mem_cons.mp hd with rfl | hmem
        · exact Or.inl hbr
        · exact hpre d hmem
    · rw [if_neg hc] at h
      rcases ih _ _ _ h with ⟨hbest, hall⟩ | ⟨pre, post, hl, hbr, hthr, hpre, hpost⟩
      · left
        refine ⟨hbest, ?_⟩
        intro d hd
        rcases List.mem_cons.mp hd with rfl | hmem
        · rcases not_and_or.mp hc with h1 | h2
          · exact Or.inl (not_lt.mp h1)
          · exact Or.inr (not_le.mp h2)
        · exact hall d hmem
      · right
        refine ⟨p :: pre, post, by rw [hl]; rfl, hbr, hthr, ?_, hpost⟩
        intro d hd
        rcases List.mem_cons.mp hd with rfl | hmem
        · rcases not_and_or.mp hc with h1 | h2
          · exact Or.inl (lt_of_le_of_lt (not_lt.mp h1) hbr)
          · exact Or.inr (not_le.mp h2)
        · exact hpre d hmem

/-- C4.  Matcher selection: for every positive threshold,
`find_matching_product` returns the candidate with the strictly highest
case-insensitive similarity ratio against the query, the first candidate
in input order winning ties (everything before the winner is strictly
below it, everything after is at most it); it returns no match when every
candidate's ratio is below the threshold, and an empty candidate sequence
always yields no match. -/
theorem matcher_strict_max_first_tie (q : String) (ps : List Listing) (thr : ℚ)
    (hthr : 0 < thr) :
    (findMatchingProduct q ps thr = none → ∀ c ∈ ps, similarity q c.text < thr) ∧
    (∀ c, findMatchingProduct q ps thr = some c →
      ∃ pre post, ps = pre ++ c :: post ∧ thr ≤ similarity q c.text
        ∧ (∀ d ∈ pre, similarity q d.text < similarity q c.text)
        ∧ (∀ d ∈ post, similarity q d.text ≤ similarity q c.text)) ∧
    findMatchingProduct q ([] : List Listing) thr = none := by
  refine ⟨?_, ?_, rfl⟩
  · intro h c hc
    obtain ⟨-, hall⟩ := findBest_eq_none q thr ps none 0 h
    by_contra hle
    push_neg at hle
    exact hall c hc ⟨lt_of_lt_of_le hthr hle, hle⟩
  · intro c h
    rcases findBest_eq_some q thr ps none 0 c h with ⟨hbest, -⟩ |
      ⟨pre, post, hl, _hbr, hthr', hpre, hpost⟩
    · exact absurd hbest (by simp)
    · refine ⟨pre, post, hl, hthr', ?_, ?_⟩
      · intro d hd
        rcases hpre d hd with h1 | h2
        · exact h1
        · exact lt_of_lt_of_le h2 hthr'
      · intro d hd
        rcases hpost d hd with h1 | h2
        · exact h1
        · exact le_of_lt (lt_of_lt_of_le h2 hthr')

/-- C4 witness: the selection theorem instantiated at the default
threshold on a two-candidate list whose second candidate is the exact
(case-insensitive) match. -/
theorem matcher_strict_max_first_tie_check :
    (0 : ℚ) < mkRat 4 5 ∧
    (∀ c, findMatchingProduct "ab" [⟨"zz", none, none⟩, ⟨"AB", none, none⟩] (mkRat 4 5)
        = some c →
      ∃ pre post,
        ([⟨"zz", none, none⟩, ⟨"AB", none, none⟩] : List Listing) = pre ++ c :: post ∧
        mkRat 4 5 ≤ similarity "ab" c.text ∧
        (∀ d ∈ pre, similarity "ab" d.text < similarity "ab" c.text) ∧
        (∀ d ∈ post, similarity "ab" d.text ≤ similarity "ab" c.text)) :=
  ⟨by norm_num,
    (matcher_strict_max_first_tie "ab" [⟨"zz", none, none⟩, ⟨"AB", none, none⟩] (mkRat 4 5)
      (by norm_num)).2.1⟩

lemma syncLoop_total (env : String → List Listing) (now : String) :
    ∀ (products : List (List String)) (sheet : List SheetRow) (tb : Bool),
      (∀ p ∈ products, 2 ≤ p.length) →
      (syncLoop env now products sheet tb).2.2 = none ∧
      (syncLoop env now products sheet tb).2.1.length = products.length := by
  intro products
  induction products with
  | nil => intro sheet tb _; exact ⟨rfl, rfl⟩
  | cons p rest ih =>
    intro sheet tb h
    have hlen : 1 < p.length := h p (List.mem_cons_self _ _)
    have hp : p[1]?.isSome = true := by
      simp [hlen]
    simp only [syncLoop]
    cases he : entryBody env now sheet p with
    | ok val =>
      obtain ⟨s', o⟩ := val
      obtain ⟨ih1, ih2⟩ := ih s' true (fun x hx => h x (List.mem_cons_of_mem _ hx))
      have htb : (tb || (p.get? 1).isSome) = true := by
        simp [List.get?_eq_getElem?, hp]
      simp only [he, htb]
      simpa using ⟨ih1, ih2⟩
    | error e =>
      have htb : (tb || (p.get? 1).isSome) = true := by
        simp [List.get?_eq_getElem?, hp]
      obtain ⟨ih1, ih2⟩ := ih sheet true (fun x hx => h x (List.mem_cons_of_mem _ hx))
      simp only [he, htb]
      simpa using ⟨ih1, ih2⟩

/-- C2.  Per-entry failure isolation: whatever the environment does —
however any entry's extraction, parsing, or catalog write behaves or
fails — the run catches each per-entry error at the entry boundary,
continues with the next entry, records one outcome per catalog entry, and
returns normally.  The only proviso is that every raw row reaches the
`title = product[1]` binding (rows of length at least 2): the claimed
error kinds (extraction, parse, write) all occur after that binding. -/
theorem run_attempts_every_entry (fetch : Except PyErr (List (List String)))
    (env : String → List Listing) (now : String) (sheet : List SheetRow)
    (h : ∀ p ∈ getAllProducts fetch, 2 ≤ p.length) :
    ∃ s os, syncStock fetch env now sheet = Except.ok (s, os) ∧
      os.length = (getAllProducts fetch).length := by
  obtain ⟨h1, h2⟩ := syncLoop_total env now (getAllProducts fetch) sheet false h
  refine ⟨(syncLoop env now (getAllProducts fetch) sheet false).1,
    (syncLoop env now (getAllProducts fetch) sheet false).2.1, ?_, h2⟩
  simp only [syncStock]
  rw [h1]

/-- C2 witness: a two-entry catalog where the first entry's quantity text
is unparseable (its processing raises `ValueError`); the run still
returns normally with one recorded outcome per entry. -/
theorem run_attempts_every_entry_check :
    (∀ p ∈ getAllProducts (Except.ok
        [["h", "w1", "", "", "", "", "", "", "S1", "", "", "", "", "", "", "", "5"],
         ["h", "w2", "", "", "", "", "", "", "S2", "", "", "", "", "", "", "", "4"]]),
      2 ≤ p.length) ∧
    (∃ s os,
      syncStock (Except.ok
          [["h", "w1", "", "", "", "", "", "", "S1", "", "", "", "", "", "", "", "5"],
           ["h", "w2", "", "", "", "", "", "", "S2", "", "", "", "", "", "", "", "4"]])
        (fun t => if t = "w1" then
            [⟨"w1", some "u", some ⟨"in stock", [["edenvale", "n/a"], ["germiston", "2"]]⟩⟩]
          else [])
        "t" [] = Except.ok (s, os) ∧
      os.length = (getAllProducts (Except.ok
          [["h", "w1", "", "", "", "", "", "", "S1", "", "", "", "", "", "", "", "5"],
           ["h", "w2", "", "", "", "", "", "", "S2", "", "", "", "", "", "", "", "4"]])).length) :=
  ⟨by decide,
    run_attempts_every_entry
      (Except.ok
        [["h", "w1", "", "", "", "", "", "", "S1", "", "", "", "", "", "", "", "5"],
         ["h", "w2", "", "", "", "", "", "", "S2", "", "", "", "", "", "", "", "4"]])
      (fun t => if t = "w1" then
          [⟨"w1", some "u", some ⟨"in stock", [["edenvale", "n/a"], ["germiston", "2"]]⟩⟩]
        else [])
      "t" [] (by decide)⟩

/-- C5 counterexample: a location whose quantity text contains no digits
("out of stock") is not recorded as absent — `int()` raises `ValueError`,
the entry is recorded as failed, and no upsert happens, so the entry's
processing does not complete normally. -/
theorem unparseable_quantity_fails_entry :
    syncStock
        (Except.ok [["h", "w", "", "", "", "", "", "", "S1", "", "", "", "", "", "", "", "5"]])
        (fun _ =>
          [⟨"w", some "u",
            some ⟨"in stock", [["edenvale", "out of stock"], ["germiston", "5"]]⟩⟩])
        "t" []
      = Except.ok ([], [Outcome.failed PyErr.valueError]) := by rfl

/-- C5 amended: a reading whose quantity text does not parse as an
integer (no digits-only cleaning exists in the code) makes the entry fail
with the raised error — the reading is not recorded as absent, the upsert
is skipped, the store is untouched for this entry, and the run continues
with the remaining entries. -/
theorem unparseable_reading_fails_entry (env : String → List Listing) (now : String)
    (sheet : List SheetRow) (product : List String) (rest : List (List String))
    (title : String) (sd : StockData) (err : PyErr)
    (h1 : product.get? 1 = some title)
    (h8 : (product.get? 8).isSome = true)
    (h16 : (product.get? 16).isSome = true)
    (hs : getStockLevels title (env title) = Except.ok (some sd))
    (ha : aggregateTotal sd = Except.error err) :
    entryBody env now sheet product = Except.error err ∧
    (syncLoop env now (product :: rest) sheet true).2.1
      = Outcome.failed err :: (syncLoop env now rest sheet true).2.1 ∧
    (syncLoop env now (product :: rest) sheet true).1
      = (syncLoop env now rest sheet true).1 := by
  obtain ⟨k, hk⟩ := Option.isSome_iff_exists.mp h8
  obtain ⟨cs, hcs⟩ := Option.isSome_iff_exists.mp h16
  simp only [List.get?_eq_getElem?] at h1 hk hcs
  have hbody : entryBody env now sheet product = Except.error err := by
    unfold entryBody
    simp [getIdx, h1, hk, hcs, hs, ha, Bind.bind, Except.bind]
  refine ⟨hbody, ?_, ?_⟩ <;> simp [syncLoop, hbody]

/-- C5 amended witness: the failure behaviour instantiated on a concrete
entry whose edenvale reading is the text "out of stock". -/
theorem unparseable_reading_fails_entry_check :
    entryBody
        (fun _ =>
          [⟨"w", some "u",
            some ⟨"in stock", [["edenvale", "out of stock"], ["germiston", "5"]]⟩⟩])
        "t" []
        ["h", "w", "", "", "", "", "", "", "S1", "", "", "", "", "", "", "", "5"]
      = Except.error PyErr.valueError :=
  (unparseable_reading_fails_entry
    (fun _ =>
      [⟨"w", some "u",
        some ⟨"in stock", [["edenvale", "out of stock"], ["germiston", "5"]]⟩⟩])
    "t" [] ["h", "w", "", "", "", "", "", "", "S1", "", "", "", "", "", "", "", "5"]
    [] "w" ⟨some "out of stock", some "5", "in stock"⟩ PyErr.valueError
    rfl rfl rfl (by rfl) (by rfl)).1

/-- C6 counterexample: an absent reading does not contribute 0 — with
edenvale missing from the stock table and germiston present as 5, the
aggregation raises `TypeError` (`int(None)`) and the entry fails instead
of totalling 5; a fully-absent reading set likewise raises instead of
totalling 0. -/
theorem absent_reading_fails_aggregation :
    syncStock
        (Except.ok [["h", "w", "", "", "", "", "", "", "S1", "", "", "", "", "", "", "", "5"]])
        (fun _ => [⟨"w", some "u", some ⟨"in stock", [["germiston", "5"]]⟩⟩]) "t" []
      = Except.ok ([], [Outcome.failed PyErr.typeError]) ∧
    aggregateTotal ⟨none, some "5", "in stock"⟩ = Except.error PyErr.typeError ∧
    aggregateTotal ⟨none, none, "unknown"⟩ = Except.error PyErr.typeError := by
  exact ⟨rfl, rfl, rfl⟩

/-- C6 amended: the aggregate total is the sum of the two location
readings only when both are present and parse as integers; an absent
edenvale reading (and in particular a fully-absent reading set) raises
`TypeError` instead of contributing 0. -/
theorem aggregate_sums_present_readings (sd : StockData) :
    (∀ e g, intOfReading sd.edenvale = Except.ok e →
      intOfReading sd.germiston = Except.ok g →
      aggregateTotal sd = Except.ok (e + g)) ∧
    (sd.edenvale = none → aggregateTotal sd = Except.error PyErr.typeError) := by
  constructor
  · intro e g he hg
    unfold aggregateTotal
    simp [he, hg, Bind.bind, Except.bind, pure, Except.pure]
  · intro he
    unfold aggregateTotal
    simp [intOfReading, he, Bind.bind, Except.bind]

/-- C6 amended witness: both conjuncts instantiated, on a reading set
with both quantities present and on one with edenvale absent. -/
theorem aggregate_sums_present_readings_check :
    aggregateTotal ⟨some "3", some "4", "in stock"⟩ = Except.ok 7 ∧
    aggregateTotal ⟨none, some "4", "in stock"⟩ = Except.error PyErr.typeError :=
  ⟨by
    have h := (aggregate_sums_present_readings ⟨some "3", some "4", "in stock"⟩).1
      3 4 (by rfl) (by rfl)
    simpa using h,
   (aggregate_sums_present_readings ⟨none, some "4", "in stock"⟩).2 rfl⟩

/-- C10.  An entry with no candidate over the match threshold and an
entry whose matched listing's stock table never materializes within the
bounded wait both make `get_stock_levels` return `None`, and the caller
reacts identically to that `None`: it records `noStock`, skips the
upsert, and leaves the store untouched — the two conditions are
indistinguishable at this interface. -/
theorem lookup_none_indistinguishable (q : String) (ps : List Listing)
    (env : String → List Listing) (now : String) (sheet : List SheetRow)
    (product : List String) :
    (findMatchingProduct q ps (mkRat 4 5) = none → getStockLevels q ps = Except.ok none) ∧
    (∀ p u, findMatchingProduct q ps (mkRat 4 5) = some p → p.href = some u →
      p.page = none → getStockLevels q ps = Except.ok none) ∧
    (∀ title, product.get? 1 = some title → (product.get? 8).isSome = true →
      (product.get? 16).isSome = true →
      getStockLevels title (env title) = Except.ok none →
      entryBody env now sheet product = Except.ok (sheet, Outcome.noStock)) := by
  refine ⟨?_, ?_, ?_⟩
  · intro h
    simp [getStockLevels, h]
  · intro p u hm hh hpg
    simp [getStockLevels, hm, hh, hpg]
  · intro title h1 h8 h16 hs
    obtain ⟨k, hk⟩ := Option.isSome_iff_exists.mp h8
    obtain ⟨cs, hcs⟩ := Option.isSome_iff_exists.mp h16
    simp only [List.get?_eq_getElem?] at h1 hk hcs
    unfold entryBody
    simp [getIdx, h1, hk, hcs, hs, Bind.bind, Except.bind, pure, Except.pure]

/-- C10 witness: instantiated on an unmatched entry (empty candidate
list): the lookup yields `None` and the entry is recorded `noStock` with
the store untouched. -/
theorem lookup_none_indistinguishable_check :
    getStockLevels "w" [] = Except.ok none ∧
    entryBody (fun _ => []) "t" []
        ["h", "w", "", "", "", "", "", "", "S1", "", "", "", "", "", "", "", "5"]
      = Except.ok ([], Outcome.noStock) :=
  ⟨(lookup_none_indistinguishable "w" [] (fun _ => []) "t" [] []).1 rfl,
   (lookup_none_indistinguishable "w" [] (fun _ => []) "t" []
      ["h", "w", "", "", "", "", "", "", "S1", "", "", "", "", "", "", "", "5"]).2.2
     "w" rfl rfl rfl ((lookup_none_indistinguishable "w" [] (fun _ => []) "t" [] []).1 rfl)⟩

end App
